import Mathlib

set_option maxRecDepth 100000

/-!
Shallow embedding of the BrandBoost repository.

The repository has two parts that matter here:

* `src/ai/flows/generate-marketing-asset-templates.ts` — the generation flow.
  The file holds TWO variants of the same exported function.  Variant A
  (the first one, `generateMarketingAssetTemplatesFlow` built directly with
  `ai.defineFlow`) takes an `imageDescription` and two optional reference
  images and assembles a multimodal prompt as an array of text/media
  segments.  Variant B (the second one, built around `ai.definePrompt` /
  `generationPrompt`) has an input schema WITHOUT `imageDescription` and
  without the reference images, and renders a handlebars template.

* `src/app/client.tsx` — the form client: zod validation (`formSchema`,
  `imageFileSchema`), the `onSubmit` handler, and `handleDownload` with the
  canvas based PNG to JPEG conversion.

Machine integers do not appear; all sizes are JavaScript numbers used as
naturals.  Strings are embedded as Lean `String`.
-/

/-! ## Prompt segments and the variant A flow input -/

/-- One element of the multimodal prompt array passed to `ai.generate`:
either a `\x7btext: ...\x7d` part or a `\x7bmedia: \x7burl: ...\x7d\x7d` part. -/
inductive Segment where
  | text (s : String) : Segment
  | media (url : String) : Segment
deriving DecidableEq, Repr

/-- Input of variant A (`GenerateMarketingAssetTemplatesInputSchema`, first
occurrence): required `businessLogoDataUri`, `businessName`, `assetType`,
`imageDescription`; optional `customText`, `colorPalette`,
`referenceImage1DataUri`, `referenceImage2DataUri`.  `z.string().optional()`
is embedded as `Option String`. -/
structure GenInput where
  businessLogoDataUri : String
  businessName : String
  assetType : String
  imageDescription : String
  customText : Option String
  colorPalette : Option String
  referenceImage1DataUri : Option String
  referenceImage2DataUri : Option String
deriving Repr

/-- The fixed reference-image guidance sentence inside variant A's template
literal (kept as a named chunk of the literal). -/
def refGuidance : String :=
  "If reference images are provided, use them for general inspiration only. Do not copy any text or graphics from the reference images."

/-- The `promptText` template literal of variant A
(`generateMarketingAssetTemplatesFlow`, first occurrence, lines 50-61).
`input.customText || \x27\x27` maps `undefined` and the empty string to the
empty string, which is `Option.getD ""` on the embedding.  The byte
sequence rendered here as `â€™` reproduces the literal
characters of the source file. -/
def promptText (i : GenInput) : String :=
  "You are a professional graphic designer AI assistant that creates high-quality, modern, and creative marketing assets for businesses.\n\nGenerate a "
    ++ i.assetType
    ++ " based on the following description: \""
    ++ i.imageDescription
    ++ "\".\n\nIncorporate the userâ€™s provided business logo and name in a clean, visually appealing way. Use the custom text and color palette if provided.\n\n"
    ++ refGuidance
    ++ "\n\nBusiness Name: "
    ++ i.businessName
    ++ "\nCustom Text: "
    ++ i.customText.getD ""
    ++ "\nColor Palette: "
    ++ i.colorPalette.getD ""
    ++ "\n"

/-- The two segments pushed for one optional reference image:
`if (input.referenceImageNDataUri) \x7b push(label); push(media) \x7d`.
JavaScript truthiness: `undefined` and `""` are both falsy. -/
def refSegs (label : String) (r : Option String) : List Segment :=
  match r with
  | none => []
  | some u => if u.isEmpty then [] else [Segment.text label, Segment.media u]

/-- The prompt array built by variant A: the full text, the logo media,
then (conditionally) the labelled reference images. -/
def promptA (i : GenInput) : List Segment :=
  [Segment.text (promptText i), Segment.media i.businessLogoDataUri]
    ++ refSegs "Reference Image 1:" i.referenceImage1DataUri
    ++ refSegs "Reference Image 2:" i.referenceImage2DataUri

/-! ## Variant B (`generationPrompt` / second flow occurrence) -/

/-- Input of variant B (`GenerateMarketingAssetTemplatesInputSchema`, second
occurrence, lines 102-112): no `imageDescription`, no reference images. -/
structure GenInputB where
  businessLogoDataUri : String
  businessName : String
  assetType : String
  customText : Option String
  colorPalette : Option String
deriving Repr

/-- Handlebars `\x7b\x7b#if x\x7d\x7d\x27...\x27\x7b\x7b/if\x7d\x7d` block of variant
B's template: emits the quoted value only when present and non-empty
(handlebars `#if` treats `""` as falsy). -/
def hbIf (o : Option String) : String :=
  match o with
  | none => ""
  | some s => if s.isEmpty then "" else "\x27" ++ s ++ "\x27"

/-- Text of variant B's template before the inline `media` helper. -/
def promptTextBPre (i : GenInputB) : String :=
  "You are a professional graphic designer AI assistant that creates high-quality, modern, and creative marketing assets for businesses.\n\nGenerate a "
    ++ i.assetType
    ++ " that incorporates the user’s provided business logo and name in a clean, visually appealing way. Use the custom text and color palette if provided.\n\nBusiness Name: "
    ++ i.businessName
    ++ "\nBusiness Logo: "

/-- Text of variant B's template after the inline `media` helper. -/
def promptTextBPost (i : GenInputB) : String :=
  "\nCustom Text: " ++ hbIf i.customText ++ "\nColor Palette: " ++ hbIf i.colorPalette ++ "\n"

/-- Rendered multimodal prompt of variant B: text, the single logo media
part, text.  No description, no reference images. -/
def promptB (i : GenInputB) : List Segment :=
  [Segment.text (promptTextBPre i), Segment.media i.businessLogoDataUri,
   Segment.text (promptTextBPost i)]

/-- Keys of variant A's `z.object` input schema, in source order. -/
def inputSchemaFieldsA : List String :=
  ["businessLogoDataUri", "businessName", "assetType", "imageDescription",
   "customText", "colorPalette", "referenceImage1DataUri", "referenceImage2DataUri"]

/-- Keys of variant B's `z.object` input schema, in source order. -/
def inputSchemaFieldsB : List String :=
  ["businessLogoDataUri", "businessName", "assetType", "customText", "colorPalette"]

/-! ## Observation helpers on segment lists and strings -/

/-- Urls of the media segments, in order. -/
def mediaUrls : List Segment → List String
  | [] => []
  | Segment.media u :: rest => u :: mediaUrls rest
  | Segment.text _ :: rest => mediaUrls rest

/-- Checks that every media segment is immediately preceded by a text
segment; the Bool argument records whether the previous segment was text. -/
def eachMediaAfterText : Bool → List Segment → Bool
  | _, [] => true
  | _, Segment.text _ :: rest => eachMediaAfterText true rest
  | prevIsText, Segment.media _ :: rest => prevIsText && eachMediaAfterText false rest

/-- One reference image url, when present and non-empty (JS truthiness). -/
def optRef (r : Option String) : List String :=
  match r with
  | none => []
  | some u => if u.isEmpty then [] else [u]

/-- The reference image urls a `GenInput` actually provides, in order. -/
def providedRefs (i : GenInput) : List String :=
  optRef i.referenceImage1DataUri ++ optRef i.referenceImage2DataUri

/-- Whether the first list is an initial run of the second. -/
def listStartsWith : List Char → List Char → Bool
  | [], _ => true
  | _ :: _, [] => false
  | p :: ps, c :: cs => p == c && listStartsWith ps cs

/-- Whether `pat` occurs as a contiguous sublist of `s`. -/
def listHasSub (pat : List Char) : List Char → Bool
  | [] => pat.isEmpty
  | c :: rest => listStartsWith pat (c :: rest) || listHasSub pat rest

/-- Whether `pat` occurs as a substring of `s` (executable). -/
def strContains (s pat : String) : Bool := listHasSub pat.data s.data

/-- Propositional substring occurrence, convenient for symbolic strings. -/
def containsStr (s pat : String) : Prop := ∃ a b : String, s = a ++ (pat ++ b)

/-! ## Client form model (`client.tsx`) -/

/-- Size/MIME ceiling: `const MAX_FILE_SIZE = 5 * 1024 * 1024`. -/
def MAX_FILE_SIZE : Nat := 5 * 1024 * 1024

/-- Allow-list `ACCEPTED_IMAGE_TYPES`. -/
def ACCEPTED_IMAGE_TYPES : List String :=
  ["image/jpeg", "image/jpg", "image/png", "image/webp"]

/-- A browser `File` as the validators see it: its byte size and MIME type. -/
structure FileV where
  size : Nat
  type : String
deriving DecidableEq, Repr

/-- `files?.[0]` on a nullable `FileList`. -/
def firstFile (files : Option (List FileV)) : Option FileV :=
  files.bind List.head?

/-- `!files || files.length === 0`. -/
def optNoFile (files : Option (List FileV)) : Bool :=
  match files with
  | none => true
  | some fs => fs.length == 0

/-- `files?.[0]?.size <= MAX_FILE_SIZE` (undefined on a missing file,
which compares as false). -/
def sizeOkF (files : Option (List FileV)) : Bool :=
  match firstFile files with
  | some f => decide (f.size ≤ MAX_FILE_SIZE)
  | none => false

/-- `ACCEPTED_IMAGE_TYPES.includes(files?.[0]?.type)`. -/
def typeOkF (files : Option (List FileV)) : Bool :=
  match firstFile files with
  | some f => decide (f.type ∈ ACCEPTED_IMAGE_TYPES)
  | none => false

/-- The `logo` field checks of `formSchema`: exactly one file, size within
the ceiling, MIME type in the allow-list (three `refine`s, all must hold). -/
def logoCheck (files : Option (List FileV)) : Bool :=
  (match files with
   | some fs => fs.length == 1
   | none => false)
    && sizeOkF files && typeOkF files

/-- `imageFileSchema` (optional reference images): each `refine` passes when
no file is selected, otherwise checks the first file. -/
def imageFileCheck (files : Option (List FileV)) : Bool :=
  (optNoFile files || sizeOkF files) && (optNoFile files || typeOkF files)

/-- `z.string().min(n)` on a string field. -/
def minLen (n : Nat) (s : String) : Bool := decide (n ≤ s.length)

/-- The values of the form, as validated by `formSchema`. -/
structure FormValues where
  logo : Option (List FileV)
  businessName : String
  assetType : String
  imageDescription : String
  referenceImage1 : Option (List FileV)
  referenceImage2 : Option (List FileV)
  customText : Option String
  colorPalette : Option String
deriving Repr

/-- Whole-form zod validation (`formSchema`): the `customText` and
`colorPalette` optional strings always pass. -/
def validateForm (v : FormValues) : Bool :=
  logoCheck v.logo && minLen 2 v.businessName && minLen 1 v.assetType
    && minLen 1 v.imageDescription
    && imageFileCheck v.referenceImage1 && imageFileCheck v.referenceImage2

/-! ## Submission state machine (`onSubmit`) -/

/-- A toast notification as fired through `useToast`. -/
structure Toast where
  variant : String
  title : String
  description : String
deriving DecidableEq, Repr

/-- The destructive toast of the `catch` branch of `onSubmit`. -/
def generationFailedToast : Toast :=
  ⟨"destructive", "Generation Failed", "Could not generate the marketing asset. Please try again."⟩

/-- The success toast of `onSubmit`. -/
def assetGeneratedToast : Toast :=
  ⟨"default", "Asset Generated!", "Your new marketing asset is ready."⟩

/-- The client state touched by `onSubmit`: the `generatedImage` and
`isLoading` React states and the fired toasts (in order). -/
structure ClientState where
  generatedImage : Option String
  isLoading : Bool
  toasts : List Toast
deriving DecidableEq, Repr

/-- Variant A flow tail (lines 74-87): `ai.generate` yields `media`
(`none` when the service returns no media); no media throws
`Image generation failed.`, otherwise the flow returns `media.url` as
`assetDataUri`. -/
def flowA (media : Option String) : Except String String :=
  match media with
  | none => Except.error "Image generation failed."
  | some url => Except.ok url

/-- The `onSubmit` handler on an already-validated form: clears
`generatedImage` and sets `isLoading` before the call; on a result with a
truthy `assetDataUri` stores it and fires the success toast, otherwise
(exception, or falsy `assetDataUri`) fires the destructive toast; `finally`
clears `isLoading`.  The outcome of the external call is the `media`
parameter. -/
def onSubmit (st : ClientState) (media : Option String) : ClientState :=
  let st1 : ClientState := { st with isLoading := true, generatedImage := none }
  let st2 : ClientState :=
    match flowA media with
    | Except.ok assetDataUri =>
      if assetDataUri.isEmpty then
        { st1 with toasts := st1.toasts ++ [generationFailedToast] }
      else
        { st1 with generatedImage := some assetDataUri,
                   toasts := st1.toasts ++ [assetGeneratedToast] }
    | Except.error _ => { st1 with toasts := st1.toasts ++ [generationFailedToast] }
  { st2 with isLoading := false }

/-- Result of a submission attempt: the final client state and whether the
external generation function was invoked at all. -/
structure SubmitResult where
  state : ClientState
  generateCalled : Bool
deriving DecidableEq, Repr

/-- `form.handleSubmit(onSubmit)`: the resolver runs `formSchema` first and
only a valid form reaches `onSubmit` (and hence the external call). -/
def handleSubmit (v : FormValues) (st : ClientState) (media : Option String) : SubmitResult :=
  if validateForm v then ⟨onSubmit st media, true⟩ else ⟨st, false⟩

/-! ## Download conversion (`handleDownload`) -/

/-- A pixel with premultiplied-alpha rational channels in `[0,1]`. -/
structure Pixel where
  r : ℚ
  g : ℚ
  b : ℚ
  a : ℚ

/-- Opaque white, the `#FFFFFF` fill style. -/
def whitePixel : Pixel := ⟨1, 1, 1, 1⟩

/-- Canvas 2D default compositing (`source-over`, premultiplied):
`out = src + dst * (1 - src.a)`. -/
def sourceOver (s d : Pixel) : Pixel :=
  ⟨s.r + d.r * (1 - s.a), s.g + d.g * (1 - s.a), s.b + d.b * (1 - s.a),
   s.a + d.a * (1 - s.a)⟩

/-- A decoded raster image. -/
structure Img where
  width : Nat
  height : Nat
  px : Nat → Nat → Pixel

/-- `fillRect(0, 0, w, h)` with `fillStyle = '#FFFFFF'` on a fresh canvas. -/
def blankCanvas (w h : Nat) : Img := Img.mk w h (fun _ _ => whitePixel)

/-- `ctx.drawImage(img, 0, 0)`: source-over composites `src` onto `dst`
where it lands, leaving the rest of `dst` alone. -/
def drawImageOver (src dst : Img) : Img :=
  Img.mk dst.width dst.height
    (fun x y => if x < src.width ∧ y < src.height
      then sourceOver (src.px x y) (dst.px x y)
      else dst.px x y)

/-- The JPEG branch of `handleDownload`: size the canvas to the image, fill
it white, draw the image, re-encode (`toDataURL('image/jpeg', 0.9)` keeps
the composited pixels; the encoding itself is abstracted away). -/
def jpegConvert (img : Img) : Img :=
  drawImageOver img (blankCanvas img.width img.height)

/-- The saved file name: `businessName || 'brandboost'` then `-asset.` then
the format (JS `||` falls back on the empty string). -/
def downloadFileName (businessName fmt : String) : String :=
  (if businessName.isEmpty then "brandboost" else businessName) ++ "-asset." ++ fmt

/-- `handleDownload`: nothing without a generated image; `jpeg` re-encodes
through the white-filled canvas; any other selected format (only `png` is
offered) passes the image data through unchanged.  The result is the saved
file name and the downloaded image data. -/
def handleDownload (generated : Option Img) (businessName downloadFormat : String) :
    Option (String × Img) :=
  match generated with
  | none => none
  | some img =>
    if downloadFormat = "jpeg" then
      some (downloadFileName businessName "jpeg", jpegConvert img)
    else
      some (downloadFileName businessName "png", img)

/-! ## Concrete fixtures -/

/-- A client state that already displays a previously generated result. -/
def stPrev : ClientState := ⟨some "data:image/png;base64,PREV", false, []⟩

/-- An empty client state. -/
def stEmpty : ClientState := ⟨none, false, []⟩

/-- A form whose logo is missing and whose other required fields are filled. -/
def vMissingLogo : FormValues :=
  ⟨none, "Acme", "Flyer", "spring sale poster", none, none, some "", some ""⟩

/-- A small valid logo file. -/
def logoFile : FileV := ⟨1000, "image/png"⟩

/-- A form that passes every check except the 1-character business name. -/
def vShortName : FormValues :=
  ⟨some [logoFile], "A", "Flyer", "spring sale poster", none, none, some "", some ""⟩

/-- A variant A input with every optional field absent. -/
def iPlain : GenInput :=
  ⟨"data:image/png;base64,LOGO", "Acme", "Flyer", "spring sale poster",
   none, none, none, none⟩

/-- A mixed variant A input: custom text and reference image 2 provided,
color palette and reference image 1 absent. -/
def iMix1 : GenInput :=
  ⟨"data:image/png;base64,LOGO", "Acme", "Flyer", "spring sale poster",
   some "Big Sale!", none, none, some "data:image/png;base64,REF2"⟩

/-- A mixed variant A input: color palette and reference image 1 provided,
custom text and reference image 2 absent. -/
def iMix2 : GenInput :=
  ⟨"data:image/png;base64,LOGO", "Acme", "Flyer", "spring sale poster",
   none, some "pastel", some "data:image/png;base64,REF1", none⟩

/-! ## Claims -/

/-- C1, counterexample.  The claim says a no-media generation leaves the
previously displayed result unchanged.  In the code `onSubmit` runs
`setGeneratedImage(null)` before the call, so starting from a state that
displays a previous result, a no-media submission fires the destructive
toast but ends with `generatedImage = none`, different from the prior
result: the claim as stated is false. -/
theorem c1_prior_result_not_preserved :
    (onSubmit stPrev none).toasts = [generationFailedToast] ∧
    generationFailedToast.variant = "destructive" ∧
    (onSubmit stPrev none).generatedImage ≠ stPrev.generatedImage := by
  refine ⟨rfl, rfl, ?_⟩
  simp [onSubmit, flowA, stPrev]

/-- C1 (amended): a submission whose generation call returns no media fires
the destructive `Generation Failed` toast, and the displayed result — which
`onSubmit` clears at the start of the submission — stays cleared (`none`),
so any previously displayed result is lost; loading ends reset. -/
theorem c1_no_media_toast_and_cleared (st : ClientState) :
    (onSubmit st none).toasts = st.toasts ++ [generationFailedToast] ∧
    (onSubmit st none).generatedImage = none ∧
    (onSubmit st none).isLoading = false := by
  refine ⟨?_, ?_, ?_⟩ <;> simp [onSubmit, flowA]

/-- C2: a submission whose logo is missing (no file list or an empty one)
or whose business name, asset type, or image description is empty fails
`formSchema` validation, and `form.handleSubmit` then never invokes the
external generation function, leaving the client state untouched. -/
theorem c2_invalid_form_no_external_call (v : FormValues) (st : ClientState)
    (media : Option String)
    (h : v.logo = none ∨ v.logo = some [] ∨ v.businessName = "" ∨
      v.assetType = "" ∨ v.imageDescription = "") :
    validateForm v = false ∧
    (handleSubmit v st media).generateCalled = false ∧
    (handleSubmit v st media).state = st := by
  have hv : validateForm v = false := by
    rcases h with h | h | h | h | h
    · simp [validateForm, logoCheck, h]
    · simp [validateForm, logoCheck, h]
    · have hm : minLen 2 "" = false := rfl
      simp [validateForm, h, hm]
    · have hm : minLen 1 "" = false := rfl
      simp [validateForm, h, hm]
    · have hm : minLen 1 "" = false := rfl
      simp [validateForm, h, hm]
  refine ⟨hv, ?_, ?_⟩ <;> simp [handleSubmit, hv]

/-- C2, witness: a concrete submission with a missing logo is rejected and
makes no external call. -/
theorem c2_invalid_form_no_external_call_witness :
    (vMissingLogo.logo = none ∨ vMissingLogo.logo = some [] ∨
      vMissingLogo.businessName = "" ∨ vMissingLogo.assetType = "" ∨
      vMissingLogo.imageDescription = "") ∧
    (validateForm vMissingLogo = false ∧
      (handleSubmit vMissingLogo stEmpty none).generateCalled = false ∧
      (handleSubmit vMissingLogo stEmpty none).state = stEmpty) :=
  ⟨Or.inl rfl, c2_invalid_form_no_external_call vMissingLogo stEmpty none (Or.inl rfl)⟩

/-- C3, counterexample.  The claim says an absent optional field is omitted
from the textual instructions.  For an input whose `customText` and
`colorPalette` are absent, variant A's prompt text still contains the
`Custom Text:` and `Color Palette:` lines (with empty values): the fields
are not omitted from the textual instructions. -/
theorem c3_labels_remain_for_absent_fields :
    iPlain.customText = none ∧ iPlain.colorPalette = none ∧
    strContains (promptText iPlain) "Custom Text:" = true ∧
    strContains (promptText iPlain) "Color Palette:" = true := by
  refine ⟨rfl, rfl, ?_, ?_⟩ <;> decide

/-- C3 (amended): per absent optional field, for every request.  When
reference image 1 is absent its two prompt segments are omitted entirely
(the prompt is exactly the text, the logo media and whatever reference
image 2 contributes), and symmetrically for reference image 2; when
`customText` is absent no value text is contributed for it — the prompt
text equals the one for an explicitly empty value — and likewise for
`colorPalette`, though their label lines remain in the textual
instructions.  Each implication holds regardless of the other optional
fields. -/
theorem c3_absent_optionals_contribute_nothing (i : GenInput) :
    (i.referenceImage1DataUri = none →
      promptA i = [Segment.text (promptText i), Segment.media i.businessLogoDataUri]
        ++ refSegs "Reference Image 2:" i.referenceImage2DataUri) ∧
    (i.referenceImage2DataUri = none →
      promptA i = [Segment.text (promptText i), Segment.media i.businessLogoDataUri]
        ++ refSegs "Reference Image 1:" i.referenceImage1DataUri) ∧
    (i.customText = none → promptText i = promptText { i with customText := some "" }) ∧
    (i.colorPalette = none → promptText i = promptText { i with colorPalette := some "" }) := by
  refine ⟨?_, ?_, ?_, ?_⟩
  · intro h1
    simp [promptA, refSegs, h1]
  · intro h2
    simp [promptA, refSegs, h2]
  · intro hc
    simp [promptText, hc]
  · intro hp
    simp [promptText, hp]

/-- C3 (amended), witness at mixed inputs: each absent field's conclusion
is established while the other optional fields are provided (reference
image 1 absent with custom text and reference image 2 present, and
vice versa). -/
theorem c3_absent_optionals_contribute_nothing_witness :
    iMix1.referenceImage1DataUri = none ∧ iMix2.referenceImage2DataUri = none ∧
    iMix2.customText = none ∧ iMix1.colorPalette = none ∧
    iMix1.customText = some "Big Sale!" ∧ iMix2.colorPalette = some "pastel" ∧
    (promptA iMix1 = [Segment.text (promptText iMix1), Segment.media iMix1.businessLogoDataUri]
      ++ refSegs "Reference Image 2:" iMix1.referenceImage2DataUri) ∧
    (promptA iMix2 = [Segment.text (promptText iMix2), Segment.media iMix2.businessLogoDataUri]
      ++ refSegs "Reference Image 1:" iMix2.referenceImage1DataUri) ∧
    promptText iMix2 = promptText { iMix2 with customText := some "" } ∧
    promptText iMix1 = promptText { iMix1 with colorPalette := some "" } :=
  ⟨rfl, rfl, rfl, rfl, rfl, rfl,
   (c3_absent_optionals_contribute_nothing iMix1).1 rfl,
   (c3_absent_optionals_contribute_nothing iMix2).2.1 rfl,
   (c3_absent_optionals_contribute_nothing iMix2).2.2.1 rfl,
   (c3_absent_optionals_contribute_nothing iMix1).2.2.2 rfl⟩

/-- C4: with a generated result, choosing `png` downloads the result image
data unchanged (a pass-through), and choosing `jpeg` downloads the image
re-encoded through a canvas first filled with opaque white, so every pixel
of the jpeg output has alpha 1 (an opaque background). -/
theorem c4_download_format_conversion (g : Img) (name : String) :
    handleDownload (some g) name "png" = some (downloadFileName name "png", g) ∧
    handleDownload (some g) name "jpeg" = some (downloadFileName name "jpeg", jpegConvert g) ∧
    ∀ x y : Nat, ((jpegConvert g).px x y).a = 1 := by
  have hne : ("png" : String) ≠ "jpeg" := by decide
  refine ⟨by simp [handleDownload, hne], by simp [handleDownload], ?_⟩
  intro x y
  by_cases h : x < g.width ∧ y < g.height
  · simp only [jpegConvert, drawImageOver, blankCanvas, if_pos h, sourceOver, whitePixel]
    ring
  · simp only [jpegConvert, drawImageOver, blankCanvas, if_neg h, whitePixel]

/-- Media urls across an append split. -/
theorem mediaUrls_append (xs ys : List Segment) :
    mediaUrls (xs ++ ys) = mediaUrls xs ++ mediaUrls ys := by
  induction xs with
  | nil => rfl
  | cons x rest ih => cases x <;> simp [mediaUrls, ih]

/-- Media urls contributed by one optional reference image's segments. -/
theorem mediaUrls_refSegs (label : String) (r : Option String) :
    mediaUrls (refSegs label r) = optRef r := by
  cases r with
  | none => rfl
  | some u => cases h : u.isEmpty <;> simp [refSegs, optRef, mediaUrls, h]

/-- C5: for every variant A input, the assembled prompt is a segment list
whose media parts, in order, are the logo first and then exactly the
provided reference images, and every media segment is immediately preceded
by a text segment (the main instruction text before the logo, the
`Reference Image N:` labels before the reference images). -/
theorem c5_prompt_segment_order (i : GenInput) :
    mediaUrls (promptA i) = i.businessLogoDataUri :: providedRefs i ∧
    eachMediaAfterText false (promptA i) = true := by
  constructor
  · simp [promptA, mediaUrls_append, mediaUrls, mediaUrls_refSegs, providedRefs]
  · rcases i with ⟨l, n, a, d, ct, cp, r1, r2⟩
    rcases r1 with _ | u1 <;> rcases r2 with _ | u2
    · simp [promptA, refSegs, eachMediaAfterText]
    · cases h2 : u2.isEmpty <;>
        simp [promptA, refSegs, eachMediaAfterText, h2]
    · cases h1 : u1.isEmpty <;>
        simp [promptA, refSegs, eachMediaAfterText, h1]
    · cases h1 : u1.isEmpty <;> cases h2 : u2.isEmpty <;>
        simp [promptA, refSegs, eachMediaAfterText, h1, h2]

/-- A variant A input providing both reference images. -/
def iRefs : GenInput :=
  ⟨"data:image/png;base64,LOGO", "Acme", "Flyer", "a red poster",
   none, none, some "data:image/png;base64,REF1", some "data:image/png;base64,REF2"⟩

/-- Same as `iPlain` but with a different image description. -/
def iOtherDesc : GenInput :=
  ⟨"data:image/png;base64,LOGO", "Acme", "Flyer", "a blue poster",
   none, none, none, none⟩

/-- C6: the two observed variants of `generateMarketingAssetTemplates` are
not equivalent.  Variant A's input schema has the `imageDescription` and
reference image fields and its prompt forwards them (the prompt text
changes with the description; both reference images appear as media), while
variant B's schema omits those fields and its rendered prompt carries the
logo as its only media part, for every input. -/
theorem c6_variants_not_equivalent :
    ("imageDescription" ∈ inputSchemaFieldsA ∧ "imageDescription" ∉ inputSchemaFieldsB) ∧
    ("referenceImage1DataUri" ∈ inputSchemaFieldsA ∧ "referenceImage1DataUri" ∉ inputSchemaFieldsB) ∧
    ("referenceImage2DataUri" ∈ inputSchemaFieldsA ∧ "referenceImage2DataUri" ∉ inputSchemaFieldsB) ∧
    promptText iPlain ≠ promptText iOtherDesc ∧
    mediaUrls (promptA iRefs) =
      ["data:image/png;base64,LOGO", "data:image/png;base64,REF1", "data:image/png;base64,REF2"] ∧
    (∀ b : GenInputB, mediaUrls (promptB b) = [b.businessLogoDataUri]) := by
  refine ⟨⟨by decide, by decide⟩, ⟨by decide, by decide⟩, ⟨by decide, by decide⟩, ?_, ?_, ?_⟩
  · decide
  · decide
  · intro b
    rfl

/-- C7: every prompt text assembled by variant A contains the fixed
guidance sentence telling the model to use reference images for general
inspiration only and never to copy text or graphics from them. -/
theorem c7_reference_inspiration_guidance (i : GenInput) :
    containsStr (promptText i) refGuidance := by
  refine ⟨"You are a professional graphic designer AI assistant that creates high-quality, modern, and creative marketing assets for businesses.\n\nGenerate a "
      ++ i.assetType
      ++ " based on the following description: \""
      ++ i.imageDescription
      ++ "\".\n\nIncorporate the userâ€™s provided business logo and name in a clean, visually appealing way. Use the custom text and color palette if provided.\n\n",
    "\n\nBusiness Name: "
      ++ i.businessName
      ++ "\nCustom Text: "
      ++ i.customText.getD ""
      ++ "\nColor Palette: "
      ++ i.colorPalette.getD ""
      ++ "\n", ?_⟩
  simp [promptText, String.append_assoc]

/-- C8: a selected file passes both the optional-image schema and the logo
checks of `formSchema` exactly when its MIME type is in the allow-list and
its size is at most `5 * 1024 * 1024` bytes; violating either condition
fails validation. -/
theorem c8_file_allowlist_and_ceiling (f : FileV) :
    (imageFileCheck (some [f]) = true ↔
      (f.type ∈ ACCEPTED_IMAGE_TYPES ∧ f.size ≤ MAX_FILE_SIZE)) ∧
    (logoCheck (some [f]) = true ↔
      (f.type ∈ ACCEPTED_IMAGE_TYPES ∧ f.size ≤ MAX_FILE_SIZE)) := by
  constructor <;>
    simp [imageFileCheck, logoCheck, optNoFile, firstFile, sizeOkF, typeOkF, and_comm]

/-- A one-pixel opaque image fixture. -/
def imgBlank : Img := Img.mk 1 1 (fun _ _ => whitePixel)

/-- C9, counterexample.  The claim says the saved name is always the
business name plus `-asset.` plus the extension, but with an empty business
name the code falls back to `brandboost`: the download is named
`brandboost-asset.png`, not `-asset.png`. -/
theorem c9_empty_name_fallback :
    handleDownload (some imgBlank) "" "png" = some ("brandboost-asset.png", imgBlank) ∧
    ("brandboost-asset.png" : String) ≠ "" ++ "-asset." ++ "png" := by
  exact ⟨rfl, by decide⟩

/-- C9 (amended): whenever the business name field is non-empty at download
time, the saved file is named the business name followed by `-asset.` and
the chosen format's extension (`png` or `jpeg`); an empty field falls back
to the fixed name `brandboost`. -/
theorem c9_download_filename (g : Img) (name : String) (h : name.isEmpty = false) :
    handleDownload (some g) name "png" = some (name ++ "-asset." ++ "png", g) ∧
    handleDownload (some g) name "jpeg" = some (name ++ "-asset." ++ "jpeg", jpegConvert g) := by
  have hne : ("png" : String) ≠ "jpeg" := by decide
  constructor <;> simp [handleDownload, downloadFileName, hne, h]

/-- C9 (amended), witness at a concrete non-empty business name. -/
theorem c9_download_filename_witness :
    ("Acme" : String).isEmpty = false ∧
    (handleDownload (some imgBlank) "Acme" "png" = some ("Acme" ++ "-asset." ++ "png", imgBlank) ∧
      handleDownload (some imgBlank) "Acme" "jpeg" =
        some ("Acme" ++ "-asset." ++ "jpeg", jpegConvert imgBlank)) :=
  ⟨rfl, c9_download_filename imgBlank "Acme" rfl⟩

/-- C10: `formSchema` requires the business name to have at least 2
characters, so every form whose business name is shorter than 2 characters
fails validation — strictly stronger than non-emptiness, as the witness at
the non-empty 1-character name `A` shows. -/
theorem c10_short_name_rejected (v : FormValues) (h : v.businessName.length < 2) :
    validateForm v = false := by
  have hm : minLen 2 v.businessName = false := by
    simp only [minLen, decide_eq_false_iff_not]
    omega
  simp [validateForm, hm]

/-- C10, witness: the 1-character business name `A` is non-empty and the
otherwise fully valid form is still rejected. -/
theorem c10_short_name_rejected_witness :
    vShortName.businessName ≠ "" ∧ vShortName.businessName.length < 2 ∧
    validateForm vShortName = false :=
  ⟨by decide, by decide, c10_short_name_rejected vShortName (by decide)⟩
